import Mathlib

/-!
Verification of the email-bot workflow in `email_bot.py`.

Python strings are modelled as lists of Unicode code points (`PyStr`).
External services (the Gmail API and the text-generation API) are modelled
as oracles: structures of functions describing what each call would return
or whether it would raise.  A raised exception is modelled as `Except.error`
or a `false` success flag; the `try/except` wrappers of the source become
total Lean functions.
-/

/-- Python `str` as a list of code points. -/
abbrev PyStr := List Char

/-- `String.toList` shorthand for writing `PyStr` literals. -/
def pys (s : String) : PyStr := s.toList

/-- Python `str.lower` (ASCII fragment, which is all the source compares). -/
def pyLower (s : PyStr) : PyStr := s.map Char.toLower

/-- Python `str.startswith`. -/
def pyStartsWith (s p : PyStr) : Bool := p.isPrefixOf s

/-- Python whitespace characters recognised by `str.strip()` (ASCII fragment). -/
def pySpace (c : Char) : Bool :=
  c = ' ' || c = '\t' || c = '\n' || c = '\x0d' || c = '\x0b' || c = '\x0c'

/-- Python `str.strip()`: drop leading and trailing whitespace. -/
def pyStrip (s : PyStr) : PyStr :=
  ((s.dropWhile pySpace).reverse.dropWhile pySpace).reverse

/-- `sanitize_subject` from `email_bot.py` (lines 62-66):
ensure we only add "Re:" once to the subject.  The check is
`subject.lower().startswith("re:")`. -/
def sanitize_subject (subject : PyStr) : PyStr :=
  if pyStartsWith (pyLower subject) (pys "re:") then subject
  else pys "Re: " ++ subject

/-! ### Base64 decoding (`parse_base64_content`)

`parse_base64_content` (lines 55-60) wraps
`base64.urlsafe_b64decode(encoded_data).decode('utf-8', errors='replace')`
in `try/except`, returning `""` on any exception.  We model the two standard
library calls from their CPython semantics: `urlsafe_b64decode` translates
`-`/`_` to `+`/`/` and runs non-strict base64 decoding (skipping
non-alphabet characters, raising on bad padding), after first requiring the
input to be pure ASCII; `bytes.decode('utf-8', errors='replace')` is total,
replacing malformed sequences with U+FFFD. -/

/-- Value of a base64-alphabet character, `none` for non-alphabet ones. -/
def b64CharVal (c : Char) : Option Nat :=
  if 'A' ≤ c ∧ c ≤ 'Z' then some (c.toNat - 65)
  else if 'a' ≤ c ∧ c ≤ 'z' then some (c.toNat - 97 + 26)
  else if '0' ≤ c ∧ c ≤ '9' then some (c.toNat - 48 + 52)
  else if c = '+' then some 62
  else if c = '/' then some 63
  else none

/-- CPython `binascii.a2b_base64` (non-strict mode): state is the position
in the current quadruple, the pending bits, and the count of padding
characters seen since the last data character; output bytes are accumulated
in reverse.  `none` models the `binascii.Error` raised for a dangling
quadruple at the end of input. -/
def a2bBase64Loop : List Char → Nat → Nat → Nat → List Nat → Option (List Nat)
  | [], quadPos, _, _, out => if quadPos = 0 then some out.reverse else none
  | c :: rest, quadPos, leftchar, pads, out =>
    if c = '=' then
      if 2 ≤ quadPos then
        if 4 ≤ quadPos + (pads + 1) then some out.reverse
        else a2bBase64Loop rest quadPos leftchar (pads + 1) out
      else a2bBase64Loop rest quadPos leftchar pads out
    else
      match b64CharVal c with
      | none => a2bBase64Loop rest quadPos leftchar pads out
      | some v =>
        match quadPos with
        | 0 => a2bBase64Loop rest 1 v 0 out
        | 1 => a2bBase64Loop rest 2 (v % 16) 0 ((leftchar * 4 + v / 16) :: out)
        | 2 => a2bBase64Loop rest 3 (v % 4) 0 ((leftchar * 16 + v / 4) :: out)
        | _ => a2bBase64Loop rest 0 0 0 ((leftchar * 64 + v) :: out)

/-- Python `base64.urlsafe_b64decode` on a `str` argument: encode to ASCII
(`ValueError`, i.e. `none`, if any code point is ≥ 128), translate the
urlsafe alphabet to the standard one, then decode non-strictly. -/
def urlsafe_b64decode (s : PyStr) : Option (List Nat) :=
  if s.all (fun c => c.toNat < 128) then
    a2bBase64Loop
      (s.map (fun c => if c = '-' then '+' else if c = '_' then '/' else c))
      0 0 0 []
  else none

/-- U+FFFD REPLACEMENT CHARACTER. -/
def replChar : Char := Char.ofNat 0xFFFD

/-- A UTF-8 continuation byte. -/
def contByte (b : Nat) : Bool := 0x80 ≤ b && b < 0xC0

/-- Allowed second byte of a multi-byte UTF-8 sequence with lead byte `b`
(the lead-specific restrictions exclude overlong forms, surrogates and
values above U+10FFFF). -/
def utf8SecondByteOk (b b2 : Nat) : Bool :=
  if b = 0xE0 then 0xA0 ≤ b2 && b2 < 0xC0
  else if b = 0xED then 0x80 ≤ b2 && b2 < 0xA0
  else if b = 0xF0 then 0x90 ≤ b2 && b2 < 0xC0
  else if b = 0xF4 then 0x80 ≤ b2 && b2 < 0x90
  else contByte b2

/-- Recursion core of `utf8DecodeReplace`.  The fuel argument (instantiated
with the byte count, which bounds the number of decoding steps) makes the
recursion structural; every step consumes at least one byte, so the
fuel-exhaustion branch is unreachable. -/
def utf8DecodeReplaceFuel : Nat → List Nat → List Char
  | 0, _ => []
  | _ + 1, [] => []
  | fuel + 1, b :: rest =>
    if b < 0x80 then Char.ofNat b :: utf8DecodeReplaceFuel fuel rest
    else if 0xC2 ≤ b ∧ b ≤ 0xDF then
      if rest.length = 0 then [replChar]
      else if contByte (rest.getD 0 0) then
        Char.ofNat ((b - 0xC0) * 0x40 + (rest.getD 0 0 - 0x80)) ::
          utf8DecodeReplaceFuel fuel (rest.drop 1)
      else replChar :: utf8DecodeReplaceFuel fuel rest
    else if 0xE0 ≤ b ∧ b ≤ 0xEF then
      if rest.length = 0 then [replChar]
      else if utf8SecondByteOk b (rest.getD 0 0) then
        if rest.length = 1 then [replChar]
        else if contByte (rest.getD 1 0) then
          Char.ofNat ((b - 0xE0) * 0x1000 + (rest.getD 0 0 - 0x80) * 0x40 +
              (rest.getD 1 0 - 0x80)) :: utf8DecodeReplaceFuel fuel (rest.drop 2)
        else replChar :: utf8DecodeReplaceFuel fuel (rest.drop 1)
      else replChar :: utf8DecodeReplaceFuel fuel rest
    else if 0xF0 ≤ b ∧ b ≤ 0xF4 then
      if rest.length = 0 then [replChar]
      else if utf8SecondByteOk b (rest.getD 0 0) then
        if rest.length = 1 then [replChar]
        else if contByte (rest.getD 1 0) then
          if rest.length = 2 then [replChar]
          else if contByte (rest.getD 2 0) then
            Char.ofNat ((b - 0xF0) * 0x40000 + (rest.getD 0 0 - 0x80) * 0x1000 +
                (rest.getD 1 0 - 0x80) * 0x40 + (rest.getD 2 0 - 0x80)) ::
              utf8DecodeReplaceFuel fuel (rest.drop 3)
          else replChar :: utf8DecodeReplaceFuel fuel (rest.drop 2)
        else replChar :: utf8DecodeReplaceFuel fuel (rest.drop 1)
      else replChar :: utf8DecodeReplaceFuel fuel rest
    else replChar :: utf8DecodeReplaceFuel fuel rest

/-- `bytes.decode('utf-8', errors='replace')`: total decoding, one U+FFFD
per maximal invalid subpart, resuming at the first byte that does not fit
the current sequence. -/
def utf8DecodeReplace (bs : List Nat) : List Char :=
  utf8DecodeReplaceFuel bs.length bs

/-- `parse_base64_content` from `email_bot.py` (lines 55-60): decode
base64-encoded strings safely; any decoding exception yields `""`. -/
def parse_base64_content (encoded_data : PyStr) : PyStr :=
  match urlsafe_b64decode encoded_data with
  | some bs => utf8DecodeReplace bs
  | none => []

/-! ### The Gmail message shape seen by `get_email_content`

`get_email_content` (lines 119-151) reads
`message['payload']`, `payload.get('parts', [])`, `part.get('mimeType')`,
`part['body'].get('data', '')` and `payload['body'].get('data', '')`.  The
dictionaries are modelled structurally; an absent optional key is `none`
(`parts` absent is modelled as `[]`, the default of its `.get`). -/

/-- A Gmail `body` dictionary: `.get('data', '')` reads the optional
base64 payload. -/
structure GmailBody where
  data : Option PyStr
deriving DecidableEq

/-- A Gmail message part: optional `mimeType`, and an optional `body` key
(`part['body']` raises `KeyError` when it is absent). -/
structure GmailPart where
  mimeType : Option PyStr
  body : Option GmailBody
deriving DecidableEq

/-- A Gmail `payload` dictionary: `parts` (absent modelled as `[]`, the
`.get('parts', [])` default) and the optional top-level `body`. -/
structure GmailPayload where
  parts : List GmailPart
  body : Option GmailBody
deriving DecidableEq

/-- A fetched Gmail message: the optional `payload` key. -/
structure GmailMessage where
  payload : Option GmailPayload
deriving DecidableEq

/-- `part.get('mimeType') == 'text/plain'`. -/
def partIsPlain (p : GmailPart) : Bool := p.mimeType == some (pys "text/plain")

/-- `part.get('mimeType') == 'text/html'`. -/
def partIsHtml (p : GmailPart) : Bool := p.mimeType == some (pys "text/html")

/-- `body.get('data', '')` of a body dictionary. -/
def bodyData (b : GmailBody) : PyStr := b.data.getD []

/-- `parse_base64_content(part['body'].get('data', ''))`; `.error` models the
`KeyError` raised when the selected part has no `body` key. -/
def partContent (b : Option GmailBody) : Except Unit PyStr :=
  match b with
  | none => .error ()
  | some bd => .ok (parse_base64_content (bodyData bd))

/-- The value `get_email_content` actually returns for a selected part:
the decoded data, or `""` when the `KeyError` is caught by the
surrounding `except`. -/
def partContentOrEmpty (b : Option GmailBody) : PyStr :=
  match b with
  | none => []
  | some bd => parse_base64_content (bodyData bd)

/-- The body of the `try` block of `get_email_content` (lines 124-148),
with the message already fetched: multipart messages try the first
`text/plain` part, then the first `text/html` part; single-part messages
decode `payload['body']` directly; otherwise `""`. -/
def get_email_content_core (m : GmailMessage) : Except Unit PyStr :=
  match m.payload with
  | none => .ok []
  | some payload =>
    if payload.parts.isEmpty then
      match payload.body with
      | some bd => .ok (parse_base64_content (bodyData bd))
      | none => .ok []
    else
      match payload.parts.find? partIsPlain with
      | some p => partContent p.body
      | none =>
        match payload.parts.find? partIsHtml with
        | some q => partContent q.body
        | none => .ok []

/-- Run the `try` block under its `except Exception` handler, which
returns `""`. -/
def runContent : Except Unit PyStr → PyStr
  | .ok s => s
  | .error _ => []

/-- `get_email_content` from `email_bot.py` (lines 119-151). -/
def get_email_content (m : GmailMessage) : PyStr :=
  runContent (get_email_content_core m)

/-! ### `get_subject` and `send_response`

The Gmail service is an oracle: `subjectHeader id` is what the metadata
`get` would produce (`.error` = the call raises; `.ok none` = no Subject
header in the response; `.ok (some s)` = subject `s`), `sendOk`/`modifyOk`
say whether the `send`/`modify` calls would succeed or raise. -/

/-- The reply actually handed to `users().messages().send`: `MIMEText`
fields `to` and `subject`, the response text, and the `threadId` of the
request body. -/
structure SendCall where
  toAddr : PyStr
  subject : PyStr
  bodyText : PyStr
  threadId : PyStr
deriving DecidableEq

/-- Oracle for the three Gmail API calls `send_response` depends on. -/
structure GmailService where
  subjectHeader : PyStr → Except PyStr (Option PyStr)
  sendOk : SendCall → Bool
  modifyOk : PyStr → Bool

/-- `get_subject` from `email_bot.py` (lines 209-227): the subject header
of a metadata fetch, `'Keine Betreffzeile'` when the header is missing,
and the placeholder `'Fehler beim Lesen des Betreffs'` when the fetch
raises (the exception is caught and reported, not propagated). -/
def get_subject (svc : GmailService) (msg_id : PyStr) : PyStr :=
  match svc.subjectHeader msg_id with
  | .error _ => pys "Fehler beim Lesen des Betreffs"
  | .ok none => pys "Keine Betreffzeile"
  | .ok (some s) => s

/-- Observable effects of one `send_response` call: the send API calls
issued and those that succeeded, the modify (remove `UNREAD`) calls issued
and those that succeeded, and how many errors were shown via `st.error`. -/
structure SendEffects where
  sendAttempts : List SendCall
  delivered : List SendCall
  modifyAttempts : List PyStr
  markedRead : List PyStr
  errorsShown : Nat
deriving DecidableEq

/-- The reply composed by `send_response` (lines 234-244): addressed to
`self.target_email`, subject `sanitize_subject(get_subject(msg_id))`,
body `response_text`, threaded via `threadId = msg_id`. -/
def composedCall (target_email : PyStr) (svc : GmailService)
    (msg_id response_text : PyStr) : SendCall :=
  { toAddr := target_email, subject := sanitize_subject (get_subject svc msg_id),
    bodyText := response_text, threadId := msg_id }

/-- `send_response` from `email_bot.py` (lines 229-257): fetch the
subject, sanitize it, compose the reply, send it, then mark the original
read; any exception stops the sequence, is shown via `st.error`, and makes
the function return `False`. -/
def send_response (target_email : PyStr) (svc : GmailService)
    (msg_id response_text : PyStr) : Bool × SendEffects :=
  let call := composedCall target_email svc msg_id response_text
  if svc.sendOk call then
    if svc.modifyOk msg_id then
      (true, { sendAttempts := [call], delivered := [call],
               modifyAttempts := [msg_id], markedRead := [msg_id],
               errorsShown := 0 })
    else
      (false, { sendAttempts := [call], delivered := [call],
                modifyAttempts := [msg_id], markedRead := [],
                errorsShown := 1 })
  else
    (false, { sendAttempts := [call], delivered := [], modifyAttempts := [],
              markedRead := [], errorsShown := 1 })

/-- The reply composed when the subject fetch has failed: subject is the
sanitized placeholder. -/
def fallbackCall (target_email response_text msg_id : PyStr) : SendCall :=
  { toAddr := target_email,
    subject := pys "Re: Fehler beim Lesen des Betreffs",
    bodyText := response_text, threadId := msg_id }

/-! ### Session state and the send button (`main`, lines 361-393) -/

/-- The dictionary built by `get_email_details`. -/
structure EmailDetails where
  id : PyStr
  subject : PyStr
  date : PyStr
  fromAddr : PyStr
  content : PyStr
deriving DecidableEq

/-- One entry of `st.session_state.email_history` (lines 379-383). -/
structure HistoryEntry where
  time : Nat
  email : EmailDetails
  response : PyStr
deriving DecidableEq

/-- The slice of `st.session_state` the reviewing panel touches. -/
structure SessionState where
  current_email : Option EmailDetails
  current_response : Option PyStr
  email_history : List HistoryEntry
deriving DecidableEq

/-- No API calls made, no errors shown. -/
def noEffects : SendEffects :=
  { sendAttempts := [], delivered := [], modifyAttempts := [],
    markedRead := [], errorsShown := 0 }

/-- One render pass of the reviewing panel in which the operator clicks
"Antwort senden" whenever the button is shown (`main`, lines 361-387).
The panel (and hence the button) exists only when `current_email` and
`current_response` are both truthy — a `None` or empty-string draft hides
it.  On a successful send the history gains one entry
`(now, current_email, current_response)` and both current fields are
reset to `None`; on failure nothing is changed. -/
def handle_send (target_email : PyStr) (svc : GmailService) (now : Nat)
    (s : SessionState) : SessionState × SendEffects :=
  match s.current_email, s.current_response with
  | some em, some resp =>
    if resp.isEmpty then (s, noEffects)
    else
      let r := send_response target_email svc em.id resp
      if r.1 then
        ({ current_email := none, current_response := none,
           email_history := s.email_history ++
             [{ time := now, email := em, response := resp }] }, r.2)
      else (s, r.2)
  | _, _ => (s, noEffects)

/-! ### `generate_response` (lines 182-207) -/

/-- `anthropic.HUMAN_PROMPT`. -/
def HUMAN_PROMPT : PyStr := pys "\n\nHuman:"

/-- `anthropic.AI_PROMPT`. -/
def AI_PROMPT : PyStr := pys "\n\nAssistant:"

/-- The prompt built at lines 189-194. -/
def build_prompt (email_content : PyStr) : PyStr :=
  HUMAN_PROMPT ++ pys "Bitte lies diese E-Mail:\n\n" ++ email_content ++
    pys "\n\n" ++
    pys "Schreibe eine empathische und warmherzige Antwort (4-5 Sätze)." ++
    AI_PROMPT

/-- `generate_response` from `email_bot.py` (lines 182-207), over an oracle
`claude` mapping the prompt to the completion the API would return
(`.error` = the call raises).  On success the code returns
`response.completion.strip()`; on failure it shows the error and
returns `""`. -/
def generate_response (claude : PyStr → Except PyStr PyStr)
    (email_content : PyStr) : PyStr :=
  match claude (build_prompt email_content) with
  | .ok completion => pyStrip completion
  | .error _ => []

/-! ### History display (`main`, lines 398-404) -/

/-- Python's tail slice `l[-n:]` for `n ≥ 0`: note `l[-0:]` is `l[0:]`,
the whole list. -/
def pyTailSlice (n : Nat) (l : List α) : List α :=
  if n = 0 then l else l.drop (l.length - n)

/-- The sequence of entries rendered by
`reversed(st.session_state.email_history[-max_history:])` (line 403). -/
def history_display (max_history : Nat) (h : List HistoryEntry) :
    List HistoryEntry :=
  (pyTailSlice max_history h).reverse

/-! ### Concrete instances used by witnesses and counterexamples -/

/-- A service whose subject fetch yields "Hallo" and whose calls all
succeed. -/
def svcGood : GmailService :=
  { subjectHeader := fun _ => .ok (some (pys "Hallo")),
    sendOk := fun _ => true, modifyOk := fun _ => true }

/-- A service whose send call raises. -/
def svcSendFail : GmailService :=
  { subjectHeader := fun _ => .ok (some (pys "Hallo")),
    sendOk := fun _ => false, modifyOk := fun _ => true }

/-- A service whose send succeeds but whose modify (mark-read) call
raises. -/
def svcModifyFail : GmailService :=
  { subjectHeader := fun _ => .ok (some (pys "Hallo")),
    sendOk := fun _ => true, modifyOk := fun _ => false }

/-- A service whose subject fetch raises. -/
def svcSubjectFail : GmailService :=
  { subjectHeader := fun _ => .error (pys "HttpError"),
    sendOk := fun _ => true, modifyOk := fun _ => true }

/-- A multipart message carrying a `text/html` part before a `text/plain`
part whose data decodes to "hi". -/
def msgBothParts : GmailMessage :=
  GmailMessage.mk (some
    (GmailPayload.mk
      [GmailPart.mk (some (pys "text/html"))
         (some (GmailBody.mk (some (pys "PGI+aGk8L2I+")))),
       GmailPart.mk (some (pys "text/plain"))
         (some (GmailBody.mk (some (pys "aGk="))))]
      none))

/-- A generation oracle whose completion carries surrounding whitespace. -/
def claudeSpacey : PyStr → Except PyStr PyStr := fun _ => .ok (pys " Hallo ")

/-- A generation oracle returning a clean completion. -/
def claudeOk : PyStr → Except PyStr PyStr := fun _ => .ok (pys "Gute Antwort")

/-- A generation oracle whose API call raises. -/
def claudeErr : PyStr → Except PyStr PyStr := fun _ => .error (pys "APIError")

/-- A history entry with timestamp `n` and blank content. -/
def histEntry (n : Nat) : HistoryEntry :=
  { time := n,
    email := { id := [], subject := [], date := [], fromAddr := [], content := [] },
    response := [] }

/-- A concrete selected email. -/
def emW : EmailDetails :=
  { id := pys "m1", subject := pys "Hallo", date := pys "Mo",
    fromAddr := pys "ziel@example.com", content := pys "Wie geht es dir?" }

/-- A concrete reviewing-state session: selected email, non-empty draft,
one prior history entry. -/
def stateW : SessionState :=
  { current_email := some emW, current_response := some (pys "Danke"),
    email_history := [histEntry 0] }

/-! ## Theorems -/

/-- Helper: lowering a string that starts with the four characters `Re: `
yields one that starts with `re:`. -/
lemma pyLower_re_append (X : PyStr) :
    pyStartsWith (pyLower (pys "Re: " ++ X)) (pys "re:") = true := by
  simp [pyStartsWith, pyLower, pys, String.toList, List.isPrefixOf]

/-- Helper: running a selected part's decoding under the exception handler
gives `partContentOrEmpty`. -/
lemma runContent_partContent (b : Option GmailBody) :
    runContent (partContent b) = partContentOrEmpty b := by
  cases b <;> rfl

/-- C4: subject prefixing is idempotent — a subject that already carries the
"Re:" prefix is returned unchanged (`sanitize ("Re: " ++ X) = "Re: " ++ X`),
and a subject that does not carry the prefix (its lowercase form does not
start with "re:") gains exactly one `Re: ` prefix. -/
theorem sanitize_subject_idem (X : PyStr) :
    sanitize_subject (pys "Re: " ++ X) = pys "Re: " ++ X ∧
    (pyStartsWith (pyLower X) (pys "re:") = false →
      sanitize_subject X = pys "Re: " ++ X) := by
  constructor
  · simp [sanitize_subject, pyLower_re_append]
  · intro h
    simp [sanitize_subject, h]

/-- C4 witness: concrete instance at X = "Hallo". -/
theorem sanitize_subject_idem_witness :
    sanitize_subject (pys "Re: " ++ pys "Hallo") = pys "Re: " ++ pys "Hallo" ∧
    sanitize_subject (pys "Hallo") = pys "Re: " ++ pys "Hallo" :=
  ⟨(sanitize_subject_idem (pys "Hallo")).1,
   (sanitize_subject_idem (pys "Hallo")).2 (by decide)⟩

/-- C5: `parse_base64_content` never raises — it is a total function, and on
every input whose base64 decoding fails (the only fallible step; the
`errors='replace'` text decoding is total) it returns the empty string. -/
theorem parse_base64_content_total (s : PyStr)
    (h : urlsafe_b64decode s = none) :
    parse_base64_content s = [] := by
  simp [parse_base64_content, h]

/-- C5 witness: "a" is malformed base64 (one dangling data character), and
`parse_base64_content` maps it to the empty string. -/
theorem parse_base64_content_total_witness :
    urlsafe_b64decode (pys "a") = none ∧ parse_base64_content (pys "a") = [] :=
  ⟨by decide, parse_base64_content_total (pys "a") (by decide)⟩

/-- C10: the "Re:" check is case-insensitive — any subject whose lowercased
form starts with "re:" (e.g. "RE: X", "re: X", "rE: X") is returned
unchanged. -/
theorem sanitize_subject_case_insensitive (X : PyStr)
    (h : pyStartsWith (pyLower X) (pys "re:") = true) :
    sanitize_subject X = X := by
  simp [sanitize_subject, h]

/-- C10 witness: "RE: Hallo", "re: Hallo" and "rE: Hallo" are all returned
unchanged. -/
theorem sanitize_subject_case_insensitive_witness :
    sanitize_subject (pys "RE: Hallo") = pys "RE: Hallo" ∧
    sanitize_subject (pys "re: Hallo") = pys "re: Hallo" ∧
    sanitize_subject (pys "rE: Hallo") = pys "rE: Hallo" :=
  ⟨sanitize_subject_case_insensitive (pys "RE: Hallo") (by decide),
   sanitize_subject_case_insensitive (pys "re: Hallo") (by decide),
   sanitize_subject_case_insensitive (pys "rE: Hallo") (by decide)⟩

/-- C3: body extraction policy of `get_email_content` — a multipart message
with a `text/plain` part yields the first such part's decoded data (even
when a `text/html` part comes first); a multipart message with only
`text/html` parts yields the first of those; a single-part message decodes
`payload['body']` directly; an absent payload, absent single-part body, or
multipart with no matching part yields `""`.  The function is total: the
one exception the `try` body can raise (a part without a `body` key) is
caught and also yields `""` (`partContentOrEmpty`). -/
theorem get_email_content_policy (m : GmailMessage) :
    (m.payload = none → get_email_content m = []) ∧
    (∀ pl, m.payload = some pl →
      (∀ p, pl.parts.find? partIsPlain = some p →
        get_email_content m = partContentOrEmpty p.body) ∧
      (pl.parts.find? partIsPlain = none →
        ∀ q, pl.parts.find? partIsHtml = some q →
          get_email_content m = partContentOrEmpty q.body) ∧
      (pl.parts = [] → ∀ bd, pl.body = some bd →
        get_email_content m = parse_base64_content (bodyData bd)) ∧
      (pl.parts = [] → pl.body = none → get_email_content m = []) ∧
      (pl.parts ≠ [] → pl.parts.find? partIsPlain = none →
        pl.parts.find? partIsHtml = none → get_email_content m = [])) := by
  constructor
  · intro h
    simp [get_email_content, get_email_content_core, h, runContent]
  · intro pl hpl
    refine ⟨?_, ?_, ?_, ?_, ?_⟩
    · intro p hp
      have hne : pl.parts.isEmpty = false := by
        cases hpp : pl.parts
        · rw [hpp] at hp; simp at hp
        · simp [hpp]
      simp [get_email_content, get_email_content_core, hpl, hne, hp,
        runContent_partContent]
    · intro hnone q hq
      have hne : pl.parts.isEmpty = false := by
        cases hpp : pl.parts
        · rw [hpp] at hq; simp at hq
        · simp [hpp]
      simp [get_email_content, get_email_content_core, hpl, hne, hnone, hq,
        runContent_partContent]
    · intro hparts bd hbd
      simp [get_email_content, get_email_content_core, hpl, hparts, hbd,
        runContent]
    · intro hparts hbd
      simp [get_email_content, get_email_content_core, hpl, hparts, hbd,
        runContent]
    · intro hne h1 h2
      have hne' : pl.parts.isEmpty = false := by
        cases hpp : pl.parts
        · exact absurd hpp hne
        · simp [hpp]
      simp [get_email_content, get_email_content_core, hpl, hne', h1, h2,
        runContent]

/-- C3 witness: on a message with an html part before a plain part, the
plain part is selected and decoded ("aGk=" is "hi"). -/
theorem get_email_content_policy_witness :
    get_email_content msgBothParts = pys "hi" := by
  have h := ((get_email_content_policy msgBothParts).2
      (GmailPayload.mk
        [GmailPart.mk (some (pys "text/html"))
           (some (GmailBody.mk (some (pys "PGI+aGk8L2I+")))),
         GmailPart.mk (some (pys "text/plain"))
           (some (GmailBody.mk (some (pys "aGk="))))] none) rfl).1
      (GmailPart.mk (some (pys "text/plain"))
        (some (GmailBody.mk (some (pys "aGk="))))) (by decide)
  exact h.trans (by decide)

/-- C1: `send_response` issues exactly one send call, addressed to the
configured target, with body the reply text, `threadId` equal to the
original message id, and subject the sanitized original subject — which
carries exactly one "Re:" prefix: unchanged when the original already has
one (case-insensitively), prefixed once otherwise. -/
theorem send_response_composition (target_email : PyStr) (svc : GmailService)
    (msg_id response_text : PyStr) :
    (send_response target_email svc msg_id response_text).2.sendAttempts =
      [{ toAddr := target_email,
         subject := sanitize_subject (get_subject svc msg_id),
         bodyText := response_text, threadId := msg_id }] ∧
    (pyStartsWith (pyLower (get_subject svc msg_id)) (pys "re:") = true →
      sanitize_subject (get_subject svc msg_id) = get_subject svc msg_id) ∧
    (pyStartsWith (pyLower (get_subject svc msg_id)) (pys "re:") = false →
      sanitize_subject (get_subject svc msg_id) =
        pys "Re: " ++ get_subject svc msg_id) := by
  refine ⟨?_, ?_, ?_⟩
  · simp only [send_response, composedCall]
    split
    · split <;> rfl
    · rfl
  · intro h; simp [sanitize_subject, h]
  · intro h; simp [sanitize_subject, h]

/-- C1 witness: with subject "Hallo", the one send call is to the target,
with subject "Re: Hallo" and `threadId` "m1". -/
theorem send_response_composition_witness :
    (send_response (pys "ziel@example.com") svcGood (pys "m1")
        (pys "Danke")).2.sendAttempts =
      [{ toAddr := pys "ziel@example.com", subject := pys "Re: Hallo",
         bodyText := pys "Danke", threadId := pys "m1" }] ∧
    sanitize_subject (get_subject svcGood (pys "m1")) =
      pys "Re: " ++ get_subject svcGood (pys "m1") :=
  ⟨(send_response_composition (pys "ziel@example.com") svcGood (pys "m1")
      (pys "Danke")).1.trans (by decide),
   (send_response_composition (pys "ziel@example.com") svcGood (pys "m1")
      (pys "Danke")).2.2 (by decide)⟩

/-- C6: `send_response` sends before marking read; `True` requires both
steps to succeed.  If the send raises, the sequence stops there — the
modify call is never attempted, an error is shown and `False` is returned.
If the send succeeds but the modify raises, the reply is already delivered,
yet an error is shown and `False` is still returned. -/
theorem send_response_failure_semantics (target_email : PyStr)
    (svc : GmailService) (msg_id response_text : PyStr) :
    ((send_response target_email svc msg_id response_text).1 = true ↔
      svc.sendOk (composedCall target_email svc msg_id response_text) = true ∧
        svc.modifyOk msg_id = true) ∧
    (svc.sendOk (composedCall target_email svc msg_id response_text) = false →
      (send_response target_email svc msg_id response_text).1 = false ∧
      (send_response target_email svc msg_id response_text).2.delivered = [] ∧
      (send_response target_email svc msg_id response_text).2.modifyAttempts
        = [] ∧
      (send_response target_email svc msg_id response_text).2.errorsShown
        = 1) ∧
    (svc.sendOk (composedCall target_email svc msg_id response_text) = true →
      svc.modifyOk msg_id = false →
      (send_response target_email svc msg_id response_text).1 = false ∧
      (send_response target_email svc msg_id response_text).2.delivered =
        [composedCall target_email svc msg_id response_text] ∧
      (send_response target_email svc msg_id response_text).2.markedRead
        = [] ∧
      (send_response target_email svc msg_id response_text).2.errorsShown
        = 1) := by
  cases h1 : svc.sendOk (composedCall target_email svc msg_id response_text) <;>
    cases h2 : svc.modifyOk msg_id <;>
      simp [send_response, h1, h2]

/-- C6 witness: a failing send yields `False` with no delivery and no modify
attempt; a failing mark-read after a successful send yields `False` even
though the reply was delivered. -/
theorem send_response_failure_semantics_witness :
    ((send_response (pys "z") svcSendFail (pys "m1") (pys "Danke")).1
        = false ∧
      (send_response (pys "z") svcSendFail (pys "m1")
          (pys "Danke")).2.delivered = [] ∧
      (send_response (pys "z") svcSendFail (pys "m1")
          (pys "Danke")).2.modifyAttempts = [] ∧
      (send_response (pys "z") svcSendFail (pys "m1")
          (pys "Danke")).2.errorsShown = 1) ∧
    ((send_response (pys "z") svcModifyFail (pys "m1") (pys "Danke")).1
        = false ∧
      (send_response (pys "z") svcModifyFail (pys "m1")
          (pys "Danke")).2.delivered =
        [composedCall (pys "z") svcModifyFail (pys "m1") (pys "Danke")] ∧
      (send_response (pys "z") svcModifyFail (pys "m1")
          (pys "Danke")).2.markedRead = [] ∧
      (send_response (pys "z") svcModifyFail (pys "m1")
          (pys "Danke")).2.errorsShown = 1) :=
  ⟨(send_response_failure_semantics (pys "z") svcSendFail (pys "m1")
      (pys "Danke")).2.1 (by decide),
   (send_response_failure_semantics (pys "z") svcModifyFail (pys "m1")
      (pys "Danke")).2.2 (by decide) (by decide)⟩

/-- C9: when the subject fetch raises, `get_subject` returns the literal
placeholder `'Fehler beim Lesen des Betreffs'` instead of propagating, and
`send_response` proceeds: it sends a reply with subject
"Re: Fehler beim Lesen des Betreffs", marks the original read, and returns
`True` (when the send and modify calls succeed). -/
theorem get_subject_fallback_send (target_email : PyStr) (svc : GmailService)
    (msg_id response_text e : PyStr)
    (hs : svc.subjectHeader msg_id = .error e)
    (hsend : svc.sendOk (fallbackCall target_email response_text msg_id) = true)
    (hmod : svc.modifyOk msg_id = true) :
    get_subject svc msg_id = pys "Fehler beim Lesen des Betreffs" ∧
    send_response target_email svc msg_id response_text =
      (true,
       { sendAttempts := [fallbackCall target_email response_text msg_id],
         delivered := [fallbackCall target_email response_text msg_id],
         modifyAttempts := [msg_id], markedRead := [msg_id],
         errorsShown := 0 }) := by
  have h1 : get_subject svc msg_id = pys "Fehler beim Lesen des Betreffs" := by
    simp [get_subject, hs]
  have h2 : sanitize_subject (pys "Fehler beim Lesen des Betreffs") =
      pys "Re: Fehler beim Lesen des Betreffs" := by decide
  have hc : composedCall target_email svc msg_id response_text =
      fallbackCall target_email response_text msg_id := by
    simp [composedCall, fallbackCall, h1, h2]
  refine ⟨h1, ?_⟩
  simp [send_response, hc, hsend, hmod]

/-- C9 witness: concrete failing subject fetch with succeeding send and
modify calls. -/
theorem get_subject_fallback_send_witness :
    get_subject svcSubjectFail (pys "m1")
      = pys "Fehler beim Lesen des Betreffs" ∧
    send_response (pys "z") svcSubjectFail (pys "m1") (pys "Hi") =
      (true,
       { sendAttempts := [fallbackCall (pys "z") (pys "Hi") (pys "m1")],
         delivered := [fallbackCall (pys "z") (pys "Hi") (pys "m1")],
         modifyAttempts := [pys "m1"], markedRead := [pys "m1"],
         errorsShown := 0 }) :=
  get_subject_fallback_send (pys "z") svcSubjectFail (pys "m1") (pys "Hi")
    (pys "HttpError") rfl rfl rfl

/-- C2: on a successful send (with a shown panel, i.e. a selected email and
a non-empty draft) the current email and draft are both cleared and exactly
one history entry — the original email snapshot and the sent text — is
appended; on a failed send the session state is unchanged, so the UI stays
in the reviewing panel. -/
theorem handle_send_state (target_email : PyStr) (svc : GmailService)
    (now : Nat) (s : SessionState) (em : EmailDetails) (resp : PyStr)
    (he : s.current_email = some em) (hr : s.current_response = some resp)
    (hne : resp ≠ []) :
    ((send_response target_email svc em.id resp).1 = true →
      (handle_send target_email svc now s).1.current_email = none ∧
      (handle_send target_email svc now s).1.current_response = none ∧
      (handle_send target_email svc now s).1.email_history =
        s.email_history ++
          [{ time := now, email := em, response := resp }]) ∧
    ((send_response target_email svc em.id resp).1 = false →
      (handle_send target_email svc now s).1 = s) := by
  have hie : resp.isEmpty = false := by
    cases resp
    · exact absurd rfl hne
    · rfl
  constructor
  · intro hsucc
    simp [handle_send, he, hr, hie, hsucc]
  · intro hfail
    simp [handle_send, he, hr, hie, hfail]

/-- C2 witness: a successful send clears both fields and appends one entry;
a failing send leaves the state unchanged. -/
theorem handle_send_state_witness :
    ((handle_send (pys "z") svcGood 5 stateW).1.current_email = none ∧
      (handle_send (pys "z") svcGood 5 stateW).1.current_response = none ∧
      (handle_send (pys "z") svcGood 5 stateW).1.email_history =
        stateW.email_history ++
          [{ time := 5, email := emW, response := pys "Danke" }]) ∧
    (handle_send (pys "z") svcSendFail 5 stateW).1 = stateW :=
  ⟨(handle_send_state (pys "z") svcGood 5 stateW emW (pys "Danke")
      rfl rfl (by decide)).1 (by decide),
   (handle_send_state (pys "z") svcSendFail 5 stateW emW (pys "Danke")
      rfl rfl (by decide)).2 (by decide)⟩

/-- C7 counterexample: the generator does not return the completion
verbatim — the code applies `.strip()`, so a completion " Hallo " comes
back as "Hallo". -/
theorem generate_response_verbatim_cex :
    claudeSpacey (build_prompt []) = .ok (pys " Hallo ") ∧
    generate_response claudeSpacey [] ≠ pys " Hallo " :=
  ⟨rfl, by decide⟩

/-- C7 (amended): for every email body, the generator returns the model's
reply text stripped of leading and trailing whitespace on success, and the
empty text on any failure of the generation call (the error having been
shown to the operator). -/
theorem generate_response_stripped (claude : PyStr → Except PyStr PyStr)
    (email_content : PyStr) :
    (∀ c, claude (build_prompt email_content) = .ok c →
      generate_response claude email_content = pyStrip c) ∧
    (∀ e, claude (build_prompt email_content) = .error e →
      generate_response claude email_content = []) := by
  constructor
  · intro c hc
    simp [generate_response, hc]
  · intro e he
    simp [generate_response, he]

/-- C7 witness: a clean completion is returned as is; a raising generation
call yields the empty draft. -/
theorem generate_response_stripped_witness :
    generate_response claudeOk [] = pys "Gute Antwort" ∧
    generate_response claudeErr [] = [] :=
  ⟨((generate_response_stripped claudeOk []).1 (pys "Gute Antwort")
      rfl).trans (by decide),
   (generate_response_stripped claudeErr []).2 (pys "APIError") rfl⟩

/-- C8 counterexample: with configured maximum N = 0 the display is not
bounded by N — Python's `history[-0:]` is the whole list, so a two-entry
history renders two entries, not at most zero. -/
theorem history_display_bound_cex :
    ¬ (history_display 0 [histEntry 1, histEntry 2]).length ≤ 0 := by
  decide

/-- C8 (amended): for every history and every configured maximum N ≥ 1, the
display equals the reversed history truncated to N — i.e. at most the N
most recent entries, most-recent-first — while the underlying history list
is left untouched (the display is a pure function of it). -/
theorem history_display_bound (N : Nat) (hN : 1 ≤ N)
    (h : List HistoryEntry) :
    history_display N h = h.reverse.take N ∧
    (history_display N h).length ≤ N := by
  have h1 : history_display N h = h.reverse.take N := by
    have h0 : pyTailSlice N h = h.rtake N := by
      rw [pyTailSlice, if_neg (by omega)]; rfl
    rw [history_display, h0, List.rtake_eq_reverse_take_reverse,
      List.reverse_reverse]
  exact ⟨h1, by rw [h1]; exact List.length_take_le N h.reverse⟩

/-- C8 witness: with N = 1 and two entries, only the most recent entry is
shown. -/
theorem history_display_bound_witness :
    history_display 1 [histEntry 1, histEntry 2] =
      [histEntry 1, histEntry 2].reverse.take 1 ∧
    (history_display 1 [histEntry 1, histEntry 2]).length ≤ 1 :=
  history_display_bound 1 (by decide) [histEntry 1, histEntry 2]
